import Mathlib

/-!
Shallow embedding of `jmx_check.py` (JMX monitoring via a Jolokia agent).

Modelling conventions:
* Parsed JSON values are an inductive `JValue` over integers, strings and
  objects; numeric JSON values are modelled as arbitrary-precision integers
  (the claims under study only involve integer-valued metrics).
* Python floats are IEEE-754 binary64 values, embedded as the exact
  rationals they denote: `roundToDouble` is round-to-nearest, ties-to-even
  at 53 significant bits (subnormals at `2 ^ (-1074)`), `float(...)` and
  true division round through it, and results at or past `2 ^ 1024` raise
  `OverflowError` as CPython's int-to-float and int/int division do.
  Comparisons between a Python int and a float are exact, as in CPython.
* The network is abstracted by an `HttpOutcome` field on each `MBean`:
  what one HTTP GET to that bean's URL returns (a connection failure, or a
  status code plus a parsed JSON object body).  Host/port/context/credential
  fields only shape the URL and are absorbed into this abstraction.
* Python exceptions (`JolokiaConnectionError`, `JolokiaInvalidResponse`,
  `AssertionError` from `assert`, `KeyError`/`TypeError`/`AttributeError`/
  `IndexError` from subscripting, `ValueError` from `float(...)`,
  `ZeroDivisionError`) become an `Except PyError` result; propagation of an
  exception is explicit `.error e` threading.
* Python truthiness of `mbean_key` is modelled: `none` and `some ""` are
  falsy.
-/

mutual
inductive JValue : Type where
  | jint (n : Int)
  | jstr (s : String)
  | jobj (fields : JFields)
deriving DecidableEq

inductive JFields : Type where
  | nil
  | cons (key : String) (val : JValue) (rest : JFields)
deriving DecidableEq
end

/-- Python-dict lookup on the (unique-key) field list of a JSON object. -/
def lookupField : JFields → String → Option JValue
  | JFields.nil, _ => none
  | JFields.cons k v rest, key => if k = key then some v else lookupField rest key

def JFields.toList : JFields → List (String × JValue)
  | JFields.nil => []
  | JFields.cons k v rest => (k, v) :: JFields.toList rest

/-- The Python exceptions that can escape the modelled fragment. -/
inductive PyError : Type where
  | connectionError (msg : String)   -- JolokiaConnectionError
  | invalidResponse (msg : String)   -- JolokiaInvalidResponse
  | assertionError                   -- failure of `assert response.status_code == 200`
  | keyError                         -- missing dict key on subscript
  | typeError                        -- bad operand / subscript on a non-dict
  | attributeError                   -- `.keys()` / `.items()` on a non-dict
  | indexError                       -- `[0]` on an empty list
  | valueError                       -- `float(...)` on a non-numeric string
  | zeroDivisionError                -- division by zero
  | overflowError                    -- int-to-float conversion or division past the double range
deriving DecidableEq

/-- What the single HTTP GET issued by `MBean.get_jmx_result` yields. -/
inductive HttpOutcome : Type where
  | connFail (msg : String)                        -- requests.ConnectionError / ConnectTimeout
  | response (status : Nat) (body : JFields)       -- status code and parsed JSON object body
deriving DecidableEq

/-- Record for `MBeanResult(mbean_name, content)` from the source (the
mutable `value` slot is never read in the modelled code paths, so it is
omitted). -/
structure MBeanResult : Type where
  mbean_name : JValue
  content : JValue
deriving DecidableEq

/-- Record for `MBean`: metric identity plus what the network returns for
its URL.  The source field named after the bean attribute is spelled `attr`
here because its Python name is a Lean keyword. -/
structure MBean : Type where
  mbean_name : String
  attr : String
  key : Option String
  outcome : HttpOutcome
deriving DecidableEq

-- Python `repr` (= `str` for dicts) of a parsed JSON value, used in the
-- `JolokiaInvalidResponse` message text.
mutual
def pyRepr : JValue → String
  | JValue.jint n => toString n
  | JValue.jstr s => "\x27" ++ s ++ "\x27"
  | JValue.jobj fs => "\x7b" ++ pyReprFields fs ++ "\x7d"

def pyReprFields : JFields → String
  | JFields.nil => ""
  | JFields.cons k v JFields.nil => "\x27" ++ k ++ "\x27: " ++ pyRepr v
  | JFields.cons k v rest => "\x27" ++ k ++ "\x27: " ++ pyRepr v ++ ", " ++ pyReprFields rest
end

/-- Python `str(...)` on a modelled value (`str` of a dict is its repr). -/
def pyStr : JValue → String
  | JValue.jint n => toString n
  | JValue.jstr s => s
  | v => pyRepr v

/-- One `MBeanResult(metric, metric_value)` per entry of the `value` mapping,
in the response's natural key order (the `for ... in metrics['value'].items()`
loop). -/
def samplesOfFields : JFields → List MBeanResult
  | JFields.nil => []
  | JFields.cons k v rest => ⟨JValue.jstr k, v⟩ :: samplesOfFields rest

/-- Fetch, `MBean.get_jmx_result` (source lines 147-180): issue the GET,
assert status 200, require a `value` key, then split on whether `request`
names a single mbean. -/
def get_jmx_result (b : MBean) : Except PyError (List MBeanResult) :=
  match b.outcome with
  | HttpOutcome.connFail msg => Except.error (PyError.connectionError msg)
  | HttpOutcome.response status metrics =>
    if status ≠ 200 then Except.error PyError.assertionError
    else
      match lookupField metrics "value" with
      | none => Except.error (PyError.invalidResponse
          ("Invalid response from Jolokia:\n" ++ pyRepr (JValue.jobj metrics)))
      | some value =>
        match lookupField metrics "request" with
        | none => Except.error PyError.keyError
        | some (JValue.jobj reqFields) =>
          match lookupField reqFields "mbean" with
          | some nm => Except.ok [⟨nm, value⟩]
          | none =>
            match value with
            | JValue.jobj valueFields => Except.ok (samplesOfFields valueFields)
            | _ => Except.error PyError.attributeError
        | some _ => Except.error PyError.attributeError

/-- Subscripting `container[k]`: `KeyError` when the key is absent,
`TypeError` when the container is not a dict. -/
def dictGet (container : JValue) (k : String) : Except PyError JValue :=
  match container with
  | JValue.jobj fs =>
    match lookupField fs k with
    | some v => Except.ok v
    | none => Except.error PyError.keyError
  | _ => Except.error PyError.typeError

/-- Extraction, `MBeanResult.get_value_from_result` (source lines 90-94);
the `if mbean_key:` test is Python truthiness, so an empty-string key
behaves like no key. -/
def get_value_from_result (r : MBeanResult) (mbean_attribute : String)
    (mbean_key : Option String) : Except PyError JValue :=
  match mbean_key with
  | some k =>
    if k = "" then dictGet r.content mbean_attribute
    else
      match dictGet r.content mbean_attribute with
      | Except.error e => Except.error e
      | Except.ok attrVal => dictGet attrVal k
  | none => dictGet r.content mbean_attribute

def digitsToNat (cs : List Char) : Nat :=
  cs.foldl (fun acc c => acc * 10 + (c.toNat - 48)) 0

/-- Decimal literals accepted by Python `float(...)`: digits with an optional
fractional part (at least one digit overall).  Exponent, `inf`/`nan` and
underscore forms, which the claims never exercise, are outside the model. -/
def parseUnsignedFloat (cs : List Char) : Option ℚ :=
  let intPart := cs.takeWhile Char.isDigit
  let rest := cs.dropWhile Char.isDigit
  match rest with
  | [] => if intPart.isEmpty then none else some (digitsToNat intPart : ℚ)
  | c :: frac =>
    if c = '.' ∧ frac.all Char.isDigit ∧ (intPart ≠ [] ∨ frac ≠ []) then
      some ((digitsToNat intPart : ℚ) + (digitsToNat frac : ℚ) / (10 : ℚ) ^ frac.length)
    else none

def parseFloatLit (s : String) : Option ℚ :=
  match s.toList with
  | '-' :: rest => (parseUnsignedFloat rest).map Neg.neg
  | '+' :: rest => parseUnsignedFloat rest
  | cs => parseUnsignedFloat cs

/-- Python 3 `round` to an integer: nearest, ties to even.  Also the IEEE-754
significand rounding rule, reused by `roundToDouble` below. -/
def pyRound (q : ℚ) : Int :=
  let f : Int := q.floor
  let r : ℚ := q - (f : ℚ)
  if r < 1 / 2 then f
  else if r > 1 / 2 then f + 1
  else if f % 2 = 0 then f else f + 1

/-- Floor of the base-2 logarithm of a positive rational, computed from the
bit lengths of numerator and denominator. -/
def ratLog2Floor (q : ℚ) : Int :=
  if (2 : ℚ) ^ ((Nat.log2 q.num.natAbs : Int) - (Nat.log2 q.den : Int)) ≤ q then
    (Nat.log2 q.num.natAbs : Int) - (Nat.log2 q.den : Int)
  else (Nat.log2 q.num.natAbs : Int) - (Nat.log2 q.den : Int) - 1

/-- Exponent of the rounding step for `q` in IEEE-754 binary64: the unit in
the last place is `2 ^ dblUlp q` (53-bit significand, subnormals below
`2 ^ (-1022)` rounding at `2 ^ (-1074)`). -/
def dblUlp (q : ℚ) : Int :=
  max (ratLog2Floor |q| - 52) (-1074)

/-- Rounding of an exact rational to the nearest IEEE-754 binary64 value
(ties to even), with an unbounded exponent: overflow past `2 ^ 1024` is
detected by the callers. -/
def roundToDouble (q : ℚ) : ℚ :=
  if q = 0 then 0
  else ((pyRound (q / (2 : ℚ) ^ dblUlp q) : Int) : ℚ) * (2 : ℚ) ^ dblUlp q

/-- Rounding to a finite double: values whose rounding reaches `2 ^ 1024` are
out of range and raise `OverflowError` (as CPython's int-to-float conversion
and int/int true division do). -/
def toFiniteDouble (q : ℚ) : Except PyError ℚ :=
  if (2 : ℚ) ^ (1024 : Nat) ≤ |roundToDouble q| then Except.error PyError.overflowError
  else Except.ok (roundToDouble q)

/-- Python `float(x)`: nearest-double conversion on numbers, decimal parse
then nearest-double on strings (`ValueError` on parse failure), `TypeError`
on anything else.  (For decimal strings past the double range CPython yields
`inf` rather than `OverflowError`; that corner, which no modelled code path
reaches with a finite classification, is outside the model.) -/
def pyFloat : JValue → Except PyError ℚ
  | JValue.jint n => toFiniteDouble (n : ℚ)
  | JValue.jstr s =>
    match parseFloatLit s with
    | some q => toFiniteDouble q
    | none => Except.error PyError.valueError
  | JValue.jobj _ => Except.error PyError.typeError

/-- Python `v >= t` against a float `t`: defined for numbers, `TypeError`
for strings or dicts. -/
def pyGE (v : JValue) (threshold : ℚ) : Except PyError Bool :=
  match v with
  | JValue.jint n => Except.ok (decide ((n : ℚ) ≥ threshold))
  | _ => Except.error PyError.typeError

/-- Python `v <= t` against a float `t`. -/
def pyLE (v : JValue) (threshold : ℚ) : Except PyError Bool :=
  match v with
  | JValue.jint n => Except.ok (decide ((n : ℚ) ≤ threshold))
  | _ => Except.error PyError.typeError

/-- Numeric view of a value for Python `/` (TypeError on non-numbers). -/
def asNum : JValue → Except PyError ℚ
  | JValue.jint n => Except.ok (n : ℚ)
  | _ => Except.error PyError.typeError

/-- Python `a / b` on integers: `ZeroDivisionError` on a zero divisor, else
the exact quotient correctly rounded to the nearest double, with
`OverflowError` when the result is out of the double range. -/
def pyTrueDiv (a b : ℚ) : Except PyError ℚ :=
  if b = 0 then Except.error PyError.zeroDivisionError
  else toFiniteDouble (a / b)

/-- One range-mode comparison `mbean_value >=/<= float(thresh)`; the float
conversion happens only when this conjunct is reached, matching the
short-circuit evaluation of the `if` at source lines 241-247. -/
def rangeTest (v : JValue) (thresh : JValue) (reverse : Bool) : Except PyError Bool :=
  match pyFloat thresh with
  | Except.error e => Except.error e
  | Except.ok q => if reverse then pyLE v q else pyGE v q

/-- The classification `if`/`elif` of source lines 240-248: critical first,
string equality in compare mode, `>=` (or `<=` when reversed) in range mode;
in compare mode no float conversion is ever evaluated, and when the critical
branch fires the warning threshold is never converted. -/
def classify (v warning_thresh critical_thresh : JValue) (compare reverse : Bool) :
    Except PyError Nat :=
  match (if compare then Except.ok (pyStr v == pyStr critical_thresh)
         else rangeTest v critical_thresh reverse : Except PyError Bool) with
  | Except.error e => Except.error e
  | Except.ok true => Except.ok 2
  | Except.ok false =>
    match (if compare then Except.ok (pyStr v == pyStr warning_thresh)
           else rangeTest v warning_thresh reverse : Except PyError Bool) with
    | Except.error e => Except.error e
    | Except.ok true => Except.ok 1
    | Except.ok false => Except.ok 0

/-- A threshold argument: a literal, or an `MBean` whose fetched value
supplies the threshold (`isinstance(..., MBean)` in the source). -/
inductive Thresh : Type where
  | lit (v : JValue)
  | mb (b : MBean)
deriving DecidableEq

/-- Threshold resolution of source lines 206-228: fetch when the threshold is
an `MBean`; `Except.ok none` is the early `return 2, None` taken when the
fetch yields more than one sample or none. -/
def resolveThresh : Thresh → Except PyError (Option JValue)
  | Thresh.lit v => Except.ok (some v)
  | Thresh.mb b =>
    match get_jmx_result b with
    | Except.error e => Except.error e
    | Except.ok [] => Except.ok none
    | Except.ok [r] =>
      match get_value_from_result r b.attr b.key with
      | Except.error e => Except.error e
      | Except.ok v => Except.ok (some v)
    | Except.ok (_ :: _ :: _) => Except.ok none

/-- Source lines 233-253, after the primary value has been extracted:
optional ratio with a second bean (`round((value / second) * 100)`, factors
kept for display), then classification, then display formatting. -/
def finishValidation (mbean_value : JValue) (warning_thresh critical_thresh : JValue)
    (compare : Bool) (second_mbean : Option MBean) (reverse : Bool) :
    Except PyError (Nat × Option String) :=
  match second_mbean with
  | none =>
    match classify mbean_value warning_thresh critical_thresh compare reverse with
    | Except.error e => Except.error e
    | Except.ok code => Except.ok (code, some (pyStr mbean_value))
  | some sb =>
    match get_jmx_result sb with
    | Except.error e => Except.error e
    | Except.ok [] => Except.error PyError.indexError
    | Except.ok (r :: _) =>
      match get_value_from_result r sb.attr sb.key with
      | Except.error e => Except.error e
      | Except.ok second_value =>
        let mbean_percent_factors :=
          "(" ++ pyStr mbean_value ++ "/" ++ pyStr second_value ++ ")"
        match asNum mbean_value with
        | Except.error e => Except.error e
        | Except.ok vq =>
          match asNum second_value with
          | Except.error e => Except.error e
          | Except.ok sq =>
            -- `round((value / second) * 100)`: the division and the
            -- multiplication are IEEE double operations; a product past the
            -- double range is `inf`, and `round(inf)` raises OverflowError.
            match pyTrueDiv vq sq with
            | Except.error e => Except.error e
            | Except.ok dq =>
              if (2 : ℚ) ^ (1024 : Nat) ≤ |roundToDouble (dq * 100)| then
                Except.error PyError.overflowError
              else
                let newValue := JValue.jint (pyRound (roundToDouble (dq * 100)))
                match classify newValue warning_thresh critical_thresh compare reverse with
                | Except.error e => Except.error e
                | Except.ok code =>
                  Except.ok (code, some (pyStr newValue ++ "% " ++ mbean_percent_factors))

/-- Evaluator, `JMXCheck.validate_result` (source lines 188-253): resolve both
thresholds (each may early-return `(2, None)`), fetch the primary bean and
take `[0]` of its samples (`IndexError` on an empty list, silently the first
sample otherwise), extract the value, then hand off to `finishValidation`. -/
def validate_result (mbean : MBean) (warning_thresh critical_thresh : Thresh)
    (compare : Bool) (second_mbean : Option MBean) (reverse : Bool) :
    Except PyError (Nat × Option String) :=
  match resolveThresh warning_thresh with
  | Except.error e => Except.error e
  | Except.ok none => Except.ok (2, none)
  | Except.ok (some w) =>
    match resolveThresh critical_thresh with
    | Except.error e => Except.error e
    | Except.ok none => Except.ok (2, none)
    | Except.ok (some c) =>
      match get_jmx_result mbean with
      | Except.error e => Except.error e
      | Except.ok [] => Except.error PyError.indexError
      | Except.ok (r :: _) =>
        match get_value_from_result r mbean.attr mbean.key with
        | Except.error e => Except.error e
        | Except.ok mbean_value =>
          finishValidation mbean_value w c compare second_mbean reverse

lemma rat_floor_eq_int_floor (q : ℚ) : Rat.floor q = ⌊q⌋ := rfl

lemma pyRound_intCast (n : Int) : pyRound ((n : Int) : ℚ) = n := by
  unfold pyRound
  rw [rat_floor_eq_int_floor, Int.floor_intCast]
  norm_num

lemma pyGE_int (v c : Int) : pyGE (JValue.jint v) ((c : Int) : ℚ) = Except.ok (decide (c ≤ v)) := by
  show Except.ok (decide ((v : ℚ) ≥ (c : ℚ))) = Except.ok (decide (c ≤ v))
  congr 1
  rw [decide_eq_decide, ge_iff_le]
  exact_mod_cast Iff.rfl

lemma pyLE_int (v c : Int) : pyLE (JValue.jint v) ((c : Int) : ℚ) = Except.ok (decide (v ≤ c)) := by
  show Except.ok (decide ((v : ℚ) ≤ (c : ℚ))) = Except.ok (decide (v ≤ c))
  congr 1
  rw [decide_eq_decide]
  exact_mod_cast Iff.rfl

lemma natLog2_eq (n k : Nat) (h1 : 2 ^ k ≤ n) (h2 : n < 2 ^ (k + 1)) : Nat.log2 n = k := by
  have hn : n ≠ 0 := by
    have : 1 ≤ 2 ^ k := Nat.one_le_two_pow
    omega
  have ha := (Nat.le_log2 hn).mpr h1
  have hb := (Nat.log2_lt hn).mpr h2
  omega

lemma natLog2_one : Nat.log2 1 = 0 := natLog2_eq 1 0 (by norm_num) (by norm_num)

lemma natLog2_one_int : (Nat.log2 1 : Int) = 0 := by
  rw [natLog2_one]
  rfl

lemma ratLog2Floor_natCast (n : Nat) (hn : n ≠ 0) : ratLog2Floor (n : ℚ) = Nat.log2 n := by
  have hone : Nat.log2 1 = 0 := natLog2_one
  unfold ratLog2Floor
  rw [Rat.num_natCast, Rat.den_natCast, Int.natAbs_ofNat, hone, Nat.cast_zero, sub_zero]
  rw [if_pos]
  rw [zpow_natCast]
  exact_mod_cast Nat.log2_self_le hn

lemma roundToDouble_self (q : ℚ) (hq : q ≠ 0) (k : Int)
    (hk : q = (k : ℚ) * (2 : ℚ) ^ dblUlp q) : roundToDouble q = q := by
  unfold roundToDouble
  rw [if_neg hq]
  set t := dblUlp q with ht
  have h2 : ((2 : ℚ) ^ t) ≠ 0 := ne_of_gt (zpow_pos (by norm_num) t)
  have hdiv : q / (2 : ℚ) ^ t = (k : ℚ) := by rw [hk, mul_div_cancel_right₀ _ h2]
  rw [hdiv, pyRound_intCast, ← hk]

lemma roundToDouble_intCast_small (c : Int) (h : c.natAbs ≤ 2 ^ 53) :
    roundToDouble (c : ℚ) = (c : ℚ) := by
  by_cases hc : c = 0
  · subst hc
    simp [roundToDouble]
  · have hq : ((c : ℚ)) ≠ 0 := Int.cast_ne_zero.mpr hc
    have hA : c.natAbs ≠ 0 := Int.natAbs_ne_zero.mpr hc
    have habs : |(c : ℚ)| = ((c.natAbs : Nat) : ℚ) := by
      rw [← Int.cast_abs, ← Int.cast_natAbs]
    have hL : ratLog2Floor |(c : ℚ)| = Nat.log2 c.natAbs := by
      rw [habs, ratLog2Floor_natCast _ hA]
    set L := Nat.log2 c.natAbs with hLdef
    have hL53 : L ≤ 53 := by
      by_contra hgt
      push_neg at hgt
      have h54 : 2 ^ 54 ≤ c.natAbs := (Nat.le_log2 hA).mp (by omega)
      have e1 : (2 : Nat) ^ 54 = 18014398509481984 := by norm_num
      have e2 : (2 : Nat) ^ 53 = 9007199254740992 := by norm_num
      omega
    have hUlp : dblUlp (c : ℚ) = (L : Int) - 52 := by
      unfold dblUlp
      rw [hL]
      omega
    rcases Nat.lt_or_ge L 53 with hlt | hge
    · apply roundToDouble_self _ hq (c * 2 ^ (52 - L))
      rw [hUlp]
      have hcast : (((52 - L : Nat)) : Int) = 52 - (L : Int) := by omega
      calc (c : ℚ) = (c : ℚ) * ((2 : ℚ) ^ (52 - (L : Int)) * (2 : ℚ) ^ ((L : Int) - 52)) := by
            rw [← zpow_add₀ (by norm_num : (2 : ℚ) ≠ 0)]
            norm_num
        _ = ((c * 2 ^ (52 - L) : Int) : ℚ) * (2 : ℚ) ^ ((L : Int) - 52) := by
            push_cast
            rw [← zpow_natCast (2 : ℚ) (52 - L), hcast]
            ring
    · have hEq : c.natAbs = 2 ^ 53 := le_antisymm h ((Nat.le_log2 hA).mp (by omega))
      have hL' : (L : Int) - 52 = 1 := by
        have : L = 53 := le_antisymm hL53 (by omega)
        omega
      apply roundToDouble_self _ hq (c / 2)
      rw [hUlp, hL']
      have hc2 : c = 2 ^ 53 ∨ c = -(2 ^ 53) := by
        rcases Int.natAbs_eq c with h1 | h1
        · left
          rw [h1, hEq]
          push_cast
        · right
          rw [h1, hEq]
          push_cast
      rcases hc2 with h1 | h1 <;> subst h1 <;> norm_num

lemma toFiniteDouble_intCast_small (c : Int) (h : c.natAbs ≤ 2 ^ 53) :
    toFiniteDouble (c : ℚ) = Except.ok (c : ℚ) := by
  unfold toFiniteDouble
  rw [roundToDouble_intCast_small c h]
  rw [if_neg]
  intro hcon
  have hle : |(c : ℚ)| ≤ (2 : ℚ) ^ 53 := by
    rw [← Int.cast_abs]
    have : |c| ≤ (2 : Int) ^ 53 := by
      rw [Int.abs_eq_natAbs]
      exact_mod_cast h
    exact_mod_cast this
  have : (2 : ℚ) ^ (1024 : Nat) ≤ (2 : ℚ) ^ 53 := le_trans hcon hle
  norm_num at this

lemma pyFloat_int_small (c : Int) (h : c.natAbs ≤ 2 ^ 53) :
    pyFloat (JValue.jint c) = Except.ok (c : ℚ) := by
  simp only [pyFloat]
  exact toFiniteDouble_intCast_small c h

lemma classify_range_fwd (v w c : Int) (hw : w.natAbs ≤ 2 ^ 53) (hc : c.natAbs ≤ 2 ^ 53) :
    classify (JValue.jint v) (JValue.jint w) (JValue.jint c) false false =
      Except.ok (if c ≤ v then 2 else if w ≤ v then 1 else 0) := by
  simp only [classify, rangeTest, pyFloat_int_small w hw, pyFloat_int_small c hc, pyGE_int,
    Bool.false_eq_true, if_false]
  by_cases h1 : c ≤ v
  · simp [h1]
  · by_cases h2 : w ≤ v <;> simp [h1, h2]

/-- In forward range mode the warning threshold is never converted once the
critical comparison fires, so it may be any value at all. -/
lemma classify_range_fwd_crit (v c : Int) (w : JValue)
    (hc : c.natAbs ≤ 2 ^ 53) (hvc : c ≤ v) :
    classify (JValue.jint v) w (JValue.jint c) false false = Except.ok 2 := by
  simp only [classify, rangeTest, pyFloat_int_small c hc, pyGE_int,
    Bool.false_eq_true, if_false]
  simp [hvc]

lemma classify_range_rev (v w c : Int) (hw : w.natAbs ≤ 2 ^ 53) (hc : c.natAbs ≤ 2 ^ 53) :
    classify (JValue.jint v) (JValue.jint w) (JValue.jint c) false true =
      Except.ok (if v ≤ c then 2 else if v ≤ w then 1 else 0) := by
  simp only [classify, rangeTest, pyFloat_int_small w hw, pyFloat_int_small c hc, pyLE_int,
    Bool.false_eq_true, if_false, if_true]
  by_cases h1 : v ≤ c
  · simp [h1]
  · by_cases h2 : v ≤ w <;> simp [h1, h2]

lemma classify_compare (v w c : JValue) (reverse : Bool) :
    classify v w c true reverse =
      Except.ok (if pyStr v = pyStr c then 2 else if pyStr v = pyStr w then 1 else 0) := by
  unfold classify
  by_cases h1 : pyStr v = pyStr c
  · rw [if_pos rfl, beq_iff_eq.mpr h1, if_pos h1]
  · rw [if_pos rfl, beq_eq_false_iff_ne.mpr h1, if_neg h1]
    by_cases h2 : pyStr v = pyStr w
    · rw [beq_iff_eq.mpr h2, if_pos h2]
      rfl
    · rw [beq_eq_false_iff_ne.mpr h2, if_neg h2]
      rfl

/-- A bean whose fetch yields one sample with integer attribute `Value`,
used to instantiate the general theorems at concrete inputs. -/
def exBean (n : Int) : MBean :=
  ⟨"bean", "Value", none,
   HttpOutcome.response 200
     (JFields.cons "value" (JValue.jobj (JFields.cons "Value" (JValue.jint n) JFields.nil))
       (JFields.cons "request"
         (JValue.jobj (JFields.cons "mbean" (JValue.jstr "bean") JFields.nil))
         JFields.nil))⟩

/-- The single sample `exBean n` fetches. -/
def exSample (n : Int) : MBeanResult :=
  ⟨JValue.jstr "bean", JValue.jobj (JFields.cons "Value" (JValue.jint n) JFields.nil)⟩

lemma exBean_fetch (n : Int) : get_jmx_result (exBean n) = Except.ok [exSample n] := rfl

lemma exSample_value (n : Int) :
    get_value_from_result (exSample n) (exBean n).attr (exBean n).key =
      Except.ok (JValue.jint n) := rfl

/-- Skeleton shared by the literal-threshold claims: once the primary fetch
and value extraction are fixed, `validate_result` is `finishValidation`. -/
lemma validate_result_lit_lit (m : MBean) (r : MBeanResult) (rest : List MBeanResult)
    (mv w c : JValue) (compare reverse : Bool) (sec : Option MBean)
    (hfetch : get_jmx_result m = Except.ok (r :: rest))
    (hval : get_value_from_result r m.attr m.key = Except.ok mv) :
    validate_result m (Thresh.lit w) (Thresh.lit c) compare sec reverse =
      finishValidation mv w c compare sec reverse := by
  unfold validate_result
  simp only [resolveThresh, hfetch, hval]

lemma ratLog2Floor_eval (q : ℚ) (a b : Nat) (la lb : Int)
    (hnum : q.num.natAbs = a) (hden : q.den = b)
    (hla : (Nat.log2 a : Int) = la) (hlb : (Nat.log2 b : Int) = lb)
    (hcond : (2 : ℚ) ^ (la - lb) ≤ q) :
    ratLog2Floor q = la - lb := by
  unfold ratLog2Floor
  rw [hnum, hden, hla, hlb, if_pos hcond]

lemma dblUlp_eval (q : ℚ) (e t : Int) (he : ratLog2Floor |q| = e)
    (ht : max (e - 52) (-1074) = t) : dblUlp q = t := by
  unfold dblUlp
  rw [he, ht]

lemma roundToDouble_eval (q : ℚ) (hq : q ≠ 0) (t : Int) (ht : dblUlp q = t)
    (r : Int) (hr : pyRound (q / (2 : ℚ) ^ t) = r) :
    roundToDouble q = (r : ℚ) * (2 : ℚ) ^ t := by
  unfold roundToDouble
  rw [if_neg hq, ht, hr]

lemma pyGE_eval (v : Int) (q : ℚ) (b : Bool) (h : decide ((v : ℚ) ≥ q) = b) :
    pyGE (JValue.jint v) q = Except.ok b := by
  show Except.ok (decide ((v : ℚ) ≥ q)) = Except.ok b
  rw [h]

lemma pyLE_eval (v : Int) (q : ℚ) (b : Bool) (h : decide ((v : ℚ) ≤ q) = b) :
    pyLE (JValue.jint v) q = Except.ok b := by
  show Except.ok (decide ((v : ℚ) ≤ q)) = Except.ok b
  rw [h]

/-- Range-mode classification, forward direction, from the evaluated float
conversions and comparisons. -/
lemma classify_fwd_eval (v : Int) (w c : JValue) (cw cc : ℚ) (bw bc : Bool)
    (hcf : pyFloat c = Except.ok cc) (hwf : pyFloat w = Except.ok cw)
    (hbc : pyGE (JValue.jint v) cc = Except.ok bc)
    (hbw : pyGE (JValue.jint v) cw = Except.ok bw) :
    classify (JValue.jint v) w c false false =
      Except.ok (if bc then 2 else if bw then 1 else 0) := by
  unfold classify rangeTest
  simp only [Bool.false_eq_true, if_false, hcf, hwf, hbc, hbw]
  cases bc
  · cases bw <;> rfl
  · rfl

/-- Range-mode classification, reverse direction, from the evaluated float
conversions and comparisons. -/
lemma classify_rev_eval (v : Int) (w c : JValue) (cw cc : ℚ) (bw bc : Bool)
    (hcf : pyFloat c = Except.ok cc) (hwf : pyFloat w = Except.ok cw)
    (hbc : pyLE (JValue.jint v) cc = Except.ok bc)
    (hbw : pyLE (JValue.jint v) cw = Except.ok bw) :
    classify (JValue.jint v) w c false true =
      Except.ok (if bc then 2 else if bw then 1 else 0) := by
  unfold classify rangeTest
  simp only [Bool.false_eq_true, if_false, if_true, hcf, hwf, hbc, hbw]
  cases bc
  · cases bw <;> rfl
  · rfl

/-- Evaluation of a range-mode check (no second bean) from an evaluated
classification. -/
lemma validate_range_eval (m : MBean) (r : MBeanResult) (rest : List MBeanResult)
    (v : Int) (w c : JValue) (reverse : Bool) (code : Nat)
    (hfetch : get_jmx_result m = Except.ok (r :: rest))
    (hval : get_value_from_result r m.attr m.key = Except.ok (JValue.jint v))
    (hcl : classify (JValue.jint v) w c false reverse = Except.ok code) :
    validate_result m (Thresh.lit w) (Thresh.lit c) false none reverse =
      Except.ok (code, some (toString v)) := by
  rw [validate_result_lit_lit m r rest (JValue.jint v) w c false reverse none hfetch hval]
  simp only [finishValidation, hcl]
  simp only [pyStr]

/-- Conversion of 2^53 + 3 to a double rounds up to 2^53 + 4: the tie at
significand 4503599627370497.5 resolves to the even neighbour above. -/
lemma pyFloat_p53_3 : pyFloat (JValue.jint 9007199254740995) = Except.ok 9007199254740996 := by
  have hq : ((9007199254740995 : Int) : ℚ) ≠ 0 := by norm_num
  have habs : |((9007199254740995 : Int) : ℚ)| = ((9007199254740995 : Nat) : ℚ) := by norm_num
  have hlog : (Nat.log2 9007199254740995 : Int) = 53 := by
    rw [natLog2_eq 9007199254740995 53 (by norm_num) (by norm_num)]
    rfl
  have hL : ratLog2Floor |((9007199254740995 : Int) : ℚ)| = 53 := by
    rw [habs]
    have := ratLog2Floor_eval ((9007199254740995 : Nat) : ℚ) 9007199254740995 1 53 0
      (by with_unfolding_all rfl) (by with_unfolding_all rfl) hlog natLog2_one_int
      (by norm_num)
    simpa using this
  have hUlp : dblUlp ((9007199254740995 : Int) : ℚ) = 1 := dblUlp_eval _ 53 1 hL (by norm_num)
  have hpr : pyRound (((9007199254740995 : Int) : ℚ) / (2 : ℚ) ^ (1 : Int)) =
      4503599627370498 := by
    have hx : ((9007199254740995 : Int) : ℚ) / (2 : ℚ) ^ (1 : Int) =
        (9007199254740995 : ℚ) / 2 := by norm_num
    rw [hx]
    with_unfolding_all rfl
  have hrd : roundToDouble ((9007199254740995 : Int) : ℚ) = 9007199254740996 := by
    rw [roundToDouble_eval _ hq 1 hUlp 4503599627370498 hpr]
    norm_num
  simp only [pyFloat, toFiniteDouble, hrd]
  rw [if_neg (by norm_num)]

/-- Conversion of 2^53 + 1 to a double rounds down to 2^53: the tie at
significand 4503599627370496.5 resolves to the even neighbour below. -/
lemma pyFloat_p53_1 : pyFloat (JValue.jint 9007199254740993) = Except.ok 9007199254740992 := by
  have hq : ((9007199254740993 : Int) : ℚ) ≠ 0 := by norm_num
  have habs : |((9007199254740993 : Int) : ℚ)| = ((9007199254740993 : Nat) : ℚ) := by norm_num
  have hlog : (Nat.log2 9007199254740993 : Int) = 53 := by
    rw [natLog2_eq 9007199254740993 53 (by norm_num) (by norm_num)]
    rfl
  have hL : ratLog2Floor |((9007199254740993 : Int) : ℚ)| = 53 := by
    rw [habs]
    have := ratLog2Floor_eval ((9007199254740993 : Nat) : ℚ) 9007199254740993 1 53 0
      (by with_unfolding_all rfl) (by with_unfolding_all rfl) hlog natLog2_one_int
      (by norm_num)
    simpa using this
  have hUlp : dblUlp ((9007199254740993 : Int) : ℚ) = 1 := dblUlp_eval _ 53 1 hL (by norm_num)
  have hpr : pyRound (((9007199254740993 : Int) : ℚ) / (2 : ℚ) ^ (1 : Int)) =
      4503599627370496 := by
    have hx : ((9007199254740993 : Int) : ℚ) / (2 : ℚ) ^ (1 : Int) =
        (9007199254740993 : ℚ) / 2 := by norm_num
    rw [hx]
    with_unfolding_all rfl
  have hrd : roundToDouble ((9007199254740993 : Int) : ℚ) = 9007199254740992 := by
    rw [roundToDouble_eval _ hq 1 hUlp 4503599627370496 hpr]
    norm_num
  simp only [pyFloat, toFiniteDouble, hrd]
  rw [if_neg (by norm_num)]

/-- C1 (amended): in non-reverse, non-compare (range) mode, `validate_result`
checks the critical condition first against `float(critical)`: whenever the
critical threshold is exactly representable as an IEEE-754 double
(`|c| ≤ 2^53`), a value at or above it is classified CRITICAL (2) regardless
of the warning threshold (which is never even converted), hence is never
classified WARNING. -/
theorem validate_result_range_critical_first
    (m : MBean) (r : MBeanResult) (rest : List MBeanResult) (v w c : Int)
    (hfetch : get_jmx_result m = Except.ok (r :: rest))
    (hval : get_value_from_result r m.attr m.key = Except.ok (JValue.jint v))
    (hc : c.natAbs ≤ 2 ^ 53) (hvc : c ≤ v) :
    validate_result m (Thresh.lit (JValue.jint w)) (Thresh.lit (JValue.jint c))
      false none false = Except.ok (2, some (toString v)) := by
  rw [validate_result_lit_lit m r rest (JValue.jint v) (JValue.jint w) (JValue.jint c)
    false false none hfetch hval]
  unfold finishValidation
  rw [classify_range_fwd_crit v c (JValue.jint w) hc hvc]
  simp [pyStr]

/-- C1 witness: metric value 1, warning 1, critical 1 in plain range mode is
CRITICAL. -/
theorem validate_result_range_critical_first_witness :
    validate_result (exBean 1) (Thresh.lit (JValue.jint 1)) (Thresh.lit (JValue.jint 1))
      false none false = Except.ok (2, some "1") :=
  validate_result_range_critical_first (exBean 1) (exSample 1) [] 1 1 1
    (exBean_fetch 1) (exSample_value 1) (by decide) (by decide)

/-- C1 counterexample: at metric value v = critical = 2^53 + 3 with
warning 1, the value satisfies v >= critical, yet the program classifies it
WARNING: `float(critical)` rounds up to 2^53 + 4, so the critical comparison
`v >= float(c)` is false while `v >= float(1)` is true. -/
theorem validate_result_range_critical_first_cex :
    (9007199254740995 : Int) ≥ (9007199254740995 : Int) ∧
    validate_result (exBean 9007199254740995) (Thresh.lit (JValue.jint 1))
      (Thresh.lit (JValue.jint 9007199254740995)) false none false =
      Except.ok (1, some "9007199254740995") := by
  refine ⟨le_refl _, ?_⟩
  have hcl : classify (JValue.jint 9007199254740995) (JValue.jint 1)
      (JValue.jint 9007199254740995) false false = Except.ok 1 := by
    rw [classify_fwd_eval 9007199254740995 (JValue.jint 1) (JValue.jint 9007199254740995)
      ((1 : Int) : ℚ) 9007199254740996 true false
      pyFloat_p53_3 (pyFloat_int_small 1 (by decide))
      (pyGE_eval _ _ false (decide_eq_false (by push_cast; norm_num)))
      (pyGE_eval _ _ true (decide_eq_true (by push_cast; norm_num)))]
    rfl
  rw [validate_range_eval (exBean 9007199254740995) (exSample 9007199254740995) []
    9007199254740995 (JValue.jint 1) (JValue.jint 9007199254740995) false 1
    (exBean_fetch _) (exSample_value _) hcl]
  rfl

/-- C2 (amended): in reverse range mode both comparisons are inverted
against the float conversions of the thresholds: whenever both thresholds
are exactly representable as IEEE-754 doubles (`|w|, |c| ≤ 2^53`), value at
or below critical is CRITICAL, else at or below warning is WARNING, else
OK. -/
theorem validate_result_reverse_mode
    (m : MBean) (r : MBeanResult) (rest : List MBeanResult) (v w c : Int)
    (hfetch : get_jmx_result m = Except.ok (r :: rest))
    (hval : get_value_from_result r m.attr m.key = Except.ok (JValue.jint v))
    (hw : w.natAbs ≤ 2 ^ 53) (hc : c.natAbs ≤ 2 ^ 53) :
    validate_result m (Thresh.lit (JValue.jint w)) (Thresh.lit (JValue.jint c))
      false none true =
      Except.ok ((if v ≤ c then 2 else if v ≤ w then 1 else 0), some (toString v)) := by
  rw [validate_result_lit_lit m r rest (JValue.jint v) (JValue.jint w) (JValue.jint c)
    false true none hfetch hval]
  unfold finishValidation
  rw [classify_range_rev v w c hw hc]
  simp [pyStr]

/-- C2 witness: value 2, warning 3, critical 1, reverse mode: 2 > 1 so not
critical, 2 <= 3 so WARNING. -/
theorem validate_result_reverse_mode_witness :
    validate_result (exBean 2) (Thresh.lit (JValue.jint 3)) (Thresh.lit (JValue.jint 1))
      false none true = Except.ok (1, some "2") := by
  rw [validate_result_reverse_mode (exBean 2) (exSample 2) [] 2 3 1
    (exBean_fetch 2) (exSample_value 2) (by decide) (by decide)]
  rfl

/-- C2 counterexample: at metric value v = critical = 2^53 + 1 with
warning 0 in reverse mode, v <= critical holds, yet the program classifies
it OK: `float(critical)` rounds down to 2^53, so `v <= float(c)` is false,
and `v <= float(0)` is false as well. -/
theorem validate_result_reverse_mode_cex :
    (9007199254740993 : Int) ≤ (9007199254740993 : Int) ∧
    validate_result (exBean 9007199254740993) (Thresh.lit (JValue.jint 0))
      (Thresh.lit (JValue.jint 9007199254740993)) false none true =
      Except.ok (0, some "9007199254740993") := by
  refine ⟨le_refl _, ?_⟩
  have hcl : classify (JValue.jint 9007199254740993) (JValue.jint 0)
      (JValue.jint 9007199254740993) false true = Except.ok 0 := by
    rw [classify_rev_eval 9007199254740993 (JValue.jint 0) (JValue.jint 9007199254740993)
      ((0 : Int) : ℚ) 9007199254740992 false false
      pyFloat_p53_1 (pyFloat_int_small 0 (by decide))
      (pyLE_eval _ _ false (decide_eq_false (by push_cast; norm_num)))
      (pyLE_eval _ _ false (decide_eq_false (by push_cast; norm_num)))]
    rfl
  rw [validate_range_eval (exBean 9007199254740993) (exSample 9007199254740993) []
    9007199254740993 (JValue.jint 0) (JValue.jint 9007199254740993) true 0
    (exBean_fetch _) (exSample_value _) hcl]
  rfl

/-- C3: in compare mode classification is by string equality only, critical
checked first: equal string forms with the critical threshold give CRITICAL
even if the warning threshold also matches; equality with only the warning
threshold gives WARNING; otherwise OK. -/
theorem validate_result_compare_mode
    (m : MBean) (r : MBeanResult) (rest : List MBeanResult) (v w c : JValue)
    (reverse : Bool)
    (hfetch : get_jmx_result m = Except.ok (r :: rest))
    (hval : get_value_from_result r m.attr m.key = Except.ok v) :
    validate_result m (Thresh.lit w) (Thresh.lit c) true none reverse =
      Except.ok ((if pyStr v = pyStr c then 2 else if pyStr v = pyStr w then 1 else 0),
        some (pyStr v)) := by
  rw [validate_result_lit_lit m r rest v w c true reverse none hfetch hval]
  unfold finishValidation
  rw [classify_compare]

/-- C3 witness: value 3 with warning "3" and critical "3": both match but
critical is checked first, so the result is CRITICAL. -/
theorem validate_result_compare_mode_witness :
    validate_result (exBean 3) (Thresh.lit (JValue.jstr "3")) (Thresh.lit (JValue.jstr "3"))
      true none false = Except.ok (2, some "3") := by
  rw [validate_result_compare_mode (exBean 3) (exSample 3) [] (JValue.jint 3)
    (JValue.jstr "3") (JValue.jstr "3") false (exBean_fetch 3) (exSample_value 3)]
  rfl

lemma pyTrueDiv_int (p s : Int) (hs0 : s ≠ 0)
    (hdiv : |roundToDouble ((p : ℚ) / (s : ℚ))| < 2 ^ (1024 : Nat)) :
    pyTrueDiv (p : ℚ) (s : ℚ) = Except.ok (roundToDouble ((p : ℚ) / (s : ℚ))) := by
  unfold pyTrueDiv toFiniteDouble
  rw [if_neg (show ((s : Int) : ℚ) = 0 → False from fun h => hs0 (by exact_mod_cast h))]
  rw [if_neg (not_le.mpr hdiv)]

/-- Evaluation of a ratio-mode check from an evaluated division, overflow
check and classification. -/
lemma validate_ratio_eval (m sb : MBean) (rm rs : MBeanResult)
    (restm rests : List MBeanResult) (p s : Int) (w c : JValue) (dq : ℚ) (code : Nat)
    (hm : get_jmx_result m = Except.ok (rm :: restm))
    (hvm : get_value_from_result rm m.attr m.key = Except.ok (JValue.jint p))
    (hs : get_jmx_result sb = Except.ok (rs :: rests))
    (hvs : get_value_from_result rs sb.attr sb.key = Except.ok (JValue.jint s))
    (hptd : pyTrueDiv (p : ℚ) (s : ℚ) = Except.ok dq)
    (hov : ¬((2 : ℚ) ^ (1024 : Nat) ≤ |roundToDouble (dq * 100)|))
    (hcl : classify (JValue.jint (pyRound (roundToDouble (dq * 100)))) w c false false =
      Except.ok code) :
    validate_result m (Thresh.lit w) (Thresh.lit c) false (some sb) false =
      Except.ok (code, some (toString (pyRound (roundToDouble (dq * 100))) ++ "% " ++
        ("(" ++ toString p ++ "/" ++ toString s ++ ")"))) := by
  rw [validate_result_lit_lit m rm restm (JValue.jint p) w c false false (some sb) hm hvm]
  simp only [finishValidation, hs, hvs, asNum, hptd]
  rw [if_neg hov, hcl]
  simp only [pyStr]

/-- C4 (amended): with a second bean, when both extracted values are the
integers `p` (primary) and `s ≠ 0` (second), the compared value becomes
`round((p / s) * 100)` evaluated in IEEE-754 double arithmetic — the
division and the multiplication are each rounded to the nearest double —
and the display string is that percentage followed by the raw factors,
`"<pct>% (<p>/<s>)"` (thresholds exactly representable, no overflow). -/
theorem validate_result_ratio
    (m sb : MBean) (rm rs : MBeanResult) (restm rests : List MBeanResult)
    (p s w c : Int)
    (hm : get_jmx_result m = Except.ok (rm :: restm))
    (hvm : get_value_from_result rm m.attr m.key = Except.ok (JValue.jint p))
    (hs : get_jmx_result sb = Except.ok (rs :: rests))
    (hvs : get_value_from_result rs sb.attr sb.key = Except.ok (JValue.jint s))
    (hs0 : s ≠ 0)
    (hw : w.natAbs ≤ 2 ^ 53) (hc : c.natAbs ≤ 2 ^ 53)
    (hdiv : |roundToDouble ((p : ℚ) / (s : ℚ))| < 2 ^ (1024 : Nat))
    (hmul : |roundToDouble (roundToDouble ((p : ℚ) / (s : ℚ)) * 100)| < 2 ^ (1024 : Nat)) :
    validate_result m (Thresh.lit (JValue.jint w)) (Thresh.lit (JValue.jint c))
      false (some sb) false =
      Except.ok
        ((if c ≤ pyRound (roundToDouble (roundToDouble ((p : ℚ) / (s : ℚ)) * 100)) then 2
          else if w ≤ pyRound (roundToDouble (roundToDouble ((p : ℚ) / (s : ℚ)) * 100)) then 1
          else 0),
         some (toString (pyRound (roundToDouble (roundToDouble ((p : ℚ) / (s : ℚ)) * 100))) ++
           "% " ++ ("(" ++ toString p ++ "/" ++ toString s ++ ")"))) := by
  rw [validate_ratio_eval m sb rm rs restm rests p s (JValue.jint w) (JValue.jint c)
    (roundToDouble ((p : ℚ) / (s : ℚ)))
    (if c ≤ pyRound (roundToDouble (roundToDouble ((p : ℚ) / (s : ℚ)) * 100)) then 2
     else if w ≤ pyRound (roundToDouble (roundToDouble ((p : ℚ) / (s : ℚ)) * 100)) then 1
     else 0)
    hm hvm hs hvs (pyTrueDiv_int p s hs0 hdiv) (not_le.mpr hmul)
    (classify_range_fwd _ w c hw hc)]

lemma rd_quarter : roundToDouble (1 / 4 : ℚ) = 1 / 4 := by
  have he : ratLog2Floor |(1 / 4 : ℚ)| = -2 := by
    have habs : |(1 / 4 : ℚ)| = 1 / 4 := by norm_num
    rw [habs]
    have h := ratLog2Floor_eval (1 / 4 : ℚ) 1 4 0 2 (by with_unfolding_all rfl)
      (by with_unfolding_all rfl) natLog2_one_int
      (by rw [natLog2_eq 4 2 (by norm_num) (by norm_num)]; rfl)
      (by norm_num)
    rw [h]
    norm_num
  have ht : dblUlp (1 / 4 : ℚ) = -54 := dblUlp_eval _ (-2) (-54) he (by norm_num)
  apply roundToDouble_self _ (by norm_num) 4503599627370496
  rw [ht]
  norm_num

lemma rd_25 : roundToDouble (25 : ℚ) = 25 := by
  have h : (25 : ℚ) = ((25 : Int) : ℚ) := by norm_num
  rw [h, roundToDouble_intCast_small 25 (by decide)]

/-- C4 witness: primary 50, second 200 gives compared value
`round(50/200*100) = 25` (both steps exact in double arithmetic here) and
display `"25% (50/200)"` (thresholds 80/90, so the severity is OK). -/
theorem validate_result_ratio_witness :
    validate_result (exBean 50) (Thresh.lit (JValue.jint 80)) (Thresh.lit (JValue.jint 90))
      false (some (exBean 200)) false = Except.ok (0, some "25% (50/200)") := by
  have hq : ((50 : Int) : ℚ) / ((200 : Int) : ℚ) = 1 / 4 := by norm_num
  have h25 : (1 / 4 : ℚ) * 100 = 25 := by norm_num
  have hdiv : |roundToDouble (((50 : Int) : ℚ) / ((200 : Int) : ℚ))| < 2 ^ (1024 : Nat) := by
    rw [hq, rd_quarter, show |(1 / 4 : ℚ)| = 1 / 4 from by norm_num]
    norm_num
  have hmul : |roundToDouble (roundToDouble (((50 : Int) : ℚ) / ((200 : Int) : ℚ)) * 100)| <
      2 ^ (1024 : Nat) := by
    rw [hq, rd_quarter, h25, rd_25]
    norm_num
  rw [validate_result_ratio (exBean 50) (exBean 200) (exSample 50) (exSample 200) [] []
    50 200 80 90 (exBean_fetch 50) (exSample_value 50) (exBean_fetch 200)
    (exSample_value 200) (by decide) (by decide) (by decide) hdiv hmul]
  rw [hq, rd_quarter, h25, rd_25]
  rw [show (25 : ℚ) = ((25 : Int) : ℚ) from by norm_num, pyRound_intCast]
  rfl

lemma rd_c4div : roundToDouble ((9007199254740993 : ℚ) / 2) = 4503599627370496 := by
  have hq0 : ((9007199254740993 : ℚ) / 2) ≠ 0 := by norm_num
  have he : ratLog2Floor |(9007199254740993 : ℚ) / 2| = 52 := by
    have habs : |(9007199254740993 : ℚ) / 2| = (9007199254740993 : ℚ) / 2 := by
      rw [abs_of_pos (by positivity)]
    rw [habs]
    have h := ratLog2Floor_eval ((9007199254740993 : ℚ) / 2) 9007199254740993 2 53 1
      (by with_unfolding_all rfl) (by with_unfolding_all rfl)
      (by rw [natLog2_eq 9007199254740993 53 (by norm_num) (by norm_num)]; rfl)
      (by rw [natLog2_eq 2 1 (by norm_num) (by norm_num)]; rfl)
      (by norm_num)
    rw [h]
    norm_num
  have ht : dblUlp ((9007199254740993 : ℚ) / 2) = 0 := dblUlp_eval _ 52 0 he (by norm_num)
  have hpr : pyRound ((9007199254740993 : ℚ) / 2 / (2 : ℚ) ^ (0 : Int)) =
      4503599627370496 := by
    have hx : (9007199254740993 : ℚ) / 2 / (2 : ℚ) ^ (0 : Int) =
        (9007199254740993 : ℚ) / 2 := by norm_num
    rw [hx]
    with_unfolding_all rfl
  rw [roundToDouble_eval _ hq0 0 ht 4503599627370496 hpr]
  norm_num

lemma rd_c4mul : roundToDouble ((4503599627370496 : ℚ) * 100) = 450359962737049600 := by
  have hx : (4503599627370496 : ℚ) * 100 = 450359962737049600 := by norm_num
  rw [hx]
  have he : ratLog2Floor |(450359962737049600 : ℚ)| = 58 := by
    have habs : |(450359962737049600 : ℚ)| = (450359962737049600 : ℚ) := by norm_num
    rw [habs]
    have h := ratLog2Floor_eval (450359962737049600 : ℚ) 450359962737049600 1 58 0
      (by with_unfolding_all rfl) (by with_unfolding_all rfl)
      (by rw [natLog2_eq 450359962737049600 58 (by norm_num) (by norm_num)]; rfl)
      natLog2_one_int
      (by norm_num)
    rw [h]
    norm_num
  have ht : dblUlp (450359962737049600 : ℚ) = 6 := dblUlp_eval _ 58 6 he (by norm_num)
  apply roundToDouble_self _ (by norm_num) 7036874417766400
  rw [ht]
  norm_num

/-- C4 counterexample: at primary p = 2^53 + 1 and second s = 2 the program
computes the double division (2^53 + 1) / 2, whose tie rounds down to 2^52,
and displays 450359962737049600 — while `round(p / s * 100)` in exact
arithmetic is 450359962737049650.  The claim's exact-arithmetic value
differs from what the program returns. -/
theorem validate_result_ratio_cex :
    validate_result (exBean 9007199254740993) (Thresh.lit (JValue.jint 1))
      (Thresh.lit (JValue.jint 1)) false (some (exBean 2)) false =
      Except.ok (2, some "450359962737049600% (9007199254740993/2)") ∧
    pyRound ((9007199254740993 : ℚ) / 2 * 100) = 450359962737049650 := by
  constructor
  · have hqq : ((9007199254740993 : Int) : ℚ) / ((2 : Int) : ℚ) =
        (9007199254740993 : ℚ) / 2 := by norm_num
    have hdiv : |roundToDouble (((9007199254740993 : Int) : ℚ) / ((2 : Int) : ℚ))| <
        2 ^ (1024 : Nat) := by
      rw [hqq, rd_c4div]
      norm_num
    have hptd : pyTrueDiv ((9007199254740993 : Int) : ℚ) ((2 : Int) : ℚ) =
        Except.ok (4503599627370496 : ℚ) := by
      rw [pyTrueDiv_int 9007199254740993 2 (by decide) hdiv, hqq, rd_c4div]
    have hov : ¬((2 : ℚ) ^ (1024 : Nat) ≤ |roundToDouble ((4503599627370496 : ℚ) * 100)|) := by
      rw [rd_c4mul]
      norm_num
    have hx : pyRound (roundToDouble ((4503599627370496 : ℚ) * 100)) = 450359962737049600 := by
      rw [rd_c4mul]
      rw [show (450359962737049600 : ℚ) = ((450359962737049600 : Int) : ℚ) from by norm_num,
        pyRound_intCast]
    have hcl : classify
        (JValue.jint (pyRound (roundToDouble ((4503599627370496 : ℚ) * 100))))
        (JValue.jint 1) (JValue.jint 1) false false = Except.ok 2 := by
      rw [hx]
      exact classify_range_fwd_crit 450359962737049600 1 (JValue.jint 1) (by decide) (by decide)
    rw [validate_ratio_eval (exBean 9007199254740993) (exBean 2)
      (exSample 9007199254740993) (exSample 2) [] [] 9007199254740993 2
      (JValue.jint 1) (JValue.jint 1) (4503599627370496 : ℚ) 2
      (exBean_fetch _) (exSample_value _) (exBean_fetch _) (exSample_value _)
      hptd hov hcl]
    rw [hx]
    rfl
  · rw [show (9007199254740993 : ℚ) / 2 * 100 = ((450359962737049650 : Int) : ℚ) from by
      norm_num, pyRound_intCast]

/-- C5: when a warning or critical threshold is itself an `MBean` whose fetch
resolves to zero samples or more than one sample, `validate_result` returns
severity CRITICAL (2) with display value `none` instead of raising. -/
theorem validate_result_threshold_ambiguous
    (tb m : MBean) (rs : List MBeanResult) (w c : JValue)
    (compare reverse : Bool) (sec : Option MBean)
    (hfetch : get_jmx_result tb = Except.ok rs) (hlen : rs.length ≠ 1) :
    validate_result m (Thresh.mb tb) (Thresh.lit c) compare sec reverse =
      Except.ok (2, none) ∧
    validate_result m (Thresh.lit w) (Thresh.mb tb) compare sec reverse =
      Except.ok (2, none) := by
  have hres : resolveThresh (Thresh.mb tb) = Except.ok none := by
    simp only [resolveThresh, hfetch]
    cases rs with
    | nil => rfl
    | cons a t =>
      cases t with
      | nil => exact absurd rfl hlen
      | cons b t2 => rfl
  constructor
  · unfold validate_result
    rw [hres]
  · unfold validate_result
    rw [hres]
    rfl

/-- A bean whose fetch is a wildcard (no `mbean` in `request`) yielding two
samples `b1` and `b2`. -/
def twoSampleBean : MBean :=
  ⟨"pattern", "Value", none,
   HttpOutcome.response 200
     (JFields.cons "value"
       (JValue.jobj
         (JFields.cons "b1" (JValue.jobj (JFields.cons "Value" (JValue.jint 1) JFields.nil))
           (JFields.cons "b2" (JValue.jobj (JFields.cons "Value" (JValue.jint 2) JFields.nil))
             JFields.nil)))
       (JFields.cons "request" (JValue.jobj JFields.nil) JFields.nil))⟩

lemma twoSampleBean_fetch :
    get_jmx_result twoSampleBean =
      Except.ok
        [⟨JValue.jstr "b1", JValue.jobj (JFields.cons "Value" (JValue.jint 1) JFields.nil)⟩,
         ⟨JValue.jstr "b2", JValue.jobj (JFields.cons "Value" (JValue.jint 2) JFields.nil)⟩] :=
  rfl

/-- C5 witness: a critical threshold fetching two samples forces
`(2, none)`. -/
theorem validate_result_threshold_ambiguous_witness :
    validate_result (exBean 5) (Thresh.lit (JValue.jint 1)) (Thresh.mb twoSampleBean)
      false none false = Except.ok (2, none) :=
  (validate_result_threshold_ambiguous twoSampleBean (exBean 5) _ (JValue.jint 1)
    (JValue.jint 1) false false none twoSampleBean_fetch (by decide)).2

/-- C10: when the second bean's extracted value is 0 (the primary being the
integer `p`), `validate_result` fails with an uncaught `ZeroDivisionError`
before any classification, returning no severity or display value. -/
theorem validate_result_zero_division
    (m sb : MBean) (rm rs : MBeanResult) (restm rests : List MBeanResult)
    (p : Int) (w c : JValue) (compare reverse : Bool)
    (hm : get_jmx_result m = Except.ok (rm :: restm))
    (hvm : get_value_from_result rm m.attr m.key = Except.ok (JValue.jint p))
    (hs : get_jmx_result sb = Except.ok (rs :: rests))
    (hvs : get_value_from_result rs sb.attr sb.key = Except.ok (JValue.jint 0)) :
    validate_result m (Thresh.lit w) (Thresh.lit c) compare (some sb) reverse =
      Except.error PyError.zeroDivisionError := by
  rw [validate_result_lit_lit m rm restm (JValue.jint p) w c compare reverse (some sb) hm hvm]
  simp only [finishValidation, hs, hvs, asNum, pyTrueDiv]
  rw [if_pos (by exact_mod_cast rfl : ((0 : Int) : ℚ) = 0)]

/-- C10 witness: primary 50, second 0 raises `ZeroDivisionError`. -/
theorem validate_result_zero_division_witness :
    validate_result (exBean 50) (Thresh.lit (JValue.jint 80)) (Thresh.lit (JValue.jint 90))
      false (some (exBean 0)) false = Except.error PyError.zeroDivisionError :=
  validate_result_zero_division (exBean 50) (exBean 0) (exSample 50) (exSample 0) [] []
    50 (JValue.jint 80) (JValue.jint 90) false false
    (exBean_fetch 50) (exSample_value 50) (exBean_fetch 0) (exSample_value 0)

lemma samplesOfFields_eq_toList_map :
    (fs : JFields) → samplesOfFields fs = fs.toList.map (fun p => ⟨JValue.jstr p.1, p.2⟩)
  | JFields.nil => rfl
  | JFields.cons k v rest => by
    simp [samplesOfFields, JFields.toList, samplesOfFields_eq_toList_map rest]

/-- C6: on a successful fetch whose body has a `value` key, if the `request`
object has an `mbean` key the result is exactly one sample named by that
mbean identifier with content the `value` object; otherwise there is one
sample per entry of the `value` mapping, named by its key, with content that
entry's value. -/
theorem get_jmx_result_samples (b : MBean) (metrics rf : JFields) (v : JValue)
    (hout : b.outcome = HttpOutcome.response 200 metrics)
    (hv : lookupField metrics "value" = some v)
    (hr : lookupField metrics "request" = some (JValue.jobj rf)) :
    (∀ nm, lookupField rf "mbean" = some nm →
      get_jmx_result b = Except.ok [⟨nm, v⟩]) ∧
    (lookupField rf "mbean" = none → ∀ vf, v = JValue.jobj vf →
      get_jmx_result b =
        Except.ok (vf.toList.map fun p => ⟨JValue.jstr p.1, p.2⟩)) := by
  constructor
  · intro nm hnm
    simp [get_jmx_result, hout, hv, hr, hnm]
  · intro hnm vf hvf
    subst hvf
    simp [get_jmx_result, hout, hv, hr, hnm, samplesOfFields_eq_toList_map]

/-- C6 witness: the single-bean response of `exBean 7` yields exactly one
sample named `bean` whose content is the `value` object. -/
theorem get_jmx_result_samples_witness :
    get_jmx_result (exBean 7) =
      Except.ok [⟨JValue.jstr "bean",
        JValue.jobj (JFields.cons "Value" (JValue.jint 7) JFields.nil)⟩] :=
  (get_jmx_result_samples (exBean 7)
    (JFields.cons "value" (JValue.jobj (JFields.cons "Value" (JValue.jint 7) JFields.nil))
      (JFields.cons "request"
        (JValue.jobj (JFields.cons "mbean" (JValue.jstr "bean") JFields.nil))
        JFields.nil))
    (JFields.cons "mbean" (JValue.jstr "bean") JFields.nil)
    (JValue.jobj (JFields.cons "Value" (JValue.jint 7) JFields.nil))
    rfl rfl rfl).1 (JValue.jstr "bean") rfl

/-- C7: an HTTP-200 response whose JSON body lacks a `value` key makes
`get_jmx_result` fail with `JolokiaInvalidResponse` whose message includes
the raw parsed body, returning no samples. -/
theorem get_jmx_result_missing_value (b : MBean) (metrics : JFields)
    (hout : b.outcome = HttpOutcome.response 200 metrics)
    (hv : lookupField metrics "value" = none) :
    get_jmx_result b = Except.error (PyError.invalidResponse
      ("Invalid response from Jolokia:\n" ++ pyRepr (JValue.jobj metrics))) ∧
    ∀ l, get_jmx_result b ≠ Except.ok l := by
  have h : get_jmx_result b = Except.error (PyError.invalidResponse
      ("Invalid response from Jolokia:\n" ++ pyRepr (JValue.jobj metrics))) := by
    simp [get_jmx_result, hout, hv]
  refine ⟨h, fun l hl => ?_⟩
  rw [h] at hl
  exact Except.noConfusion hl

/-- A 200 response whose body has no `value` key. -/
def noValueBean : MBean :=
  ⟨"bean", "Value", none,
   HttpOutcome.response 200 (JFields.cons "status" (JValue.jint 404) JFields.nil)⟩

/-- C7 witness: `noValueBean` fails with the invalid-response error carrying
the repr of its body. -/
theorem get_jmx_result_missing_value_witness :
    get_jmx_result noValueBean = Except.error (PyError.invalidResponse
      ("Invalid response from Jolokia:\n" ++
        pyRepr (JValue.jobj (JFields.cons "status" (JValue.jint 404) JFields.nil)))) :=
  (get_jmx_result_missing_value noValueBean
    (JFields.cons "status" (JValue.jint 404) JFields.nil) rfl rfl).1

/-- C9: a non-200 HTTP status fails the bare `assert` (an unguarded crash),
and is not converted into a `JolokiaConnectionError` or a
`JolokiaInvalidResponse`. -/
theorem get_jmx_result_non_200_asserts (b : MBean) (status : Nat) (body : JFields)
    (hout : b.outcome = HttpOutcome.response status body) (hst : status ≠ 200) :
    get_jmx_result b = Except.error PyError.assertionError ∧
    (∀ msg, get_jmx_result b ≠ Except.error (PyError.connectionError msg)) ∧
    (∀ msg, get_jmx_result b ≠ Except.error (PyError.invalidResponse msg)) := by
  have h : get_jmx_result b = Except.error PyError.assertionError := by
    simp only [get_jmx_result, hout]
    rw [if_pos hst]
  refine ⟨h, fun msg hmsg => ?_, fun msg hmsg => ?_⟩ <;>
    (rw [h] at hmsg; exact PyError.noConfusion (Except.error.inj hmsg))

/-- A response with HTTP status 500. -/
def status500Bean : MBean :=
  ⟨"bean", "Value", none, HttpOutcome.response 500 JFields.nil⟩

/-- C9 witness: status 500 crashes the assertion. -/
theorem get_jmx_result_non_200_asserts_witness :
    get_jmx_result status500Bean = Except.error PyError.assertionError :=
  (get_jmx_result_non_200_asserts status500Bean 500 JFields.nil rfl (by decide)).1

/-- C8 counterexample: the primary fetch of `twoSampleBean` yields two
samples, yet `validate_result` raises no error at all — it silently
evaluates the first sample (`b1`, value 1, below both thresholds, hence OK),
contradicting the claim that more than one sample produces a caller-level
error. -/
theorem validate_result_multi_sample_silent :
    (get_jmx_result twoSampleBean).map List.length = Except.ok 2 ∧
    validate_result twoSampleBean (Thresh.lit (JValue.jint 10)) (Thresh.lit (JValue.jint 20))
      false none false = Except.ok (0, some "1") := by
  constructor
  · rfl
  · have hcl : classify (JValue.jint 1) (JValue.jint 10) (JValue.jint 20) false false =
        Except.ok 0 := by
      rw [classify_range_fwd 1 10 20 (by decide) (by decide)]
      rfl
    rw [validate_range_eval twoSampleBean
      ⟨JValue.jstr "b1", JValue.jobj (JFields.cons "Value" (JValue.jint 1) JFields.nil)⟩
      [⟨JValue.jstr "b2", JValue.jobj (JFields.cons "Value" (JValue.jint 2) JFields.nil)⟩]
      1 (JValue.jint 10) (JValue.jint 20) false 0 twoSampleBean_fetch rfl hcl]
    rfl

/-- C8 amended: the primary fetch is subscripted with `[0]` without a length
check: zero samples raise a caller-level `IndexError`, but more than one
sample raises nothing — the first sample is silently evaluated (the value is
extracted from the head sample alone, whatever the tail). -/
theorem validate_result_primary_sample_handling (m : MBean) (w c : JValue)
    (compare reverse : Bool) (sec : Option MBean) :
    (get_jmx_result m = Except.ok [] →
      validate_result m (Thresh.lit w) (Thresh.lit c) compare sec reverse =
        Except.error PyError.indexError) ∧
    (∀ r rest mv, get_jmx_result m = Except.ok (r :: rest) →
      get_value_from_result r m.attr m.key = Except.ok mv →
      validate_result m (Thresh.lit w) (Thresh.lit c) compare sec reverse =
        finishValidation mv w c compare sec reverse) ∧
    (∀ r rest e, get_jmx_result m = Except.ok (r :: rest) →
      get_value_from_result r m.attr m.key = Except.error e →
      validate_result m (Thresh.lit w) (Thresh.lit c) compare sec reverse =
        Except.error e) := by
  refine ⟨fun h => ?_, fun r rest mv h hval => ?_, fun r rest e h hval => ?_⟩
  · unfold validate_result
    rw [h]
    rfl
  · exact validate_result_lit_lit m r rest mv w c compare reverse sec h hval
  · unfold validate_result
    rw [h]
    simp only [resolveThresh, hval]

/-- A wildcard response whose `value` mapping is empty: zero samples. -/
def emptySampleBean : MBean :=
  ⟨"pattern", "Value", none,
   HttpOutcome.response 200
     (JFields.cons "value" (JValue.jobj JFields.nil)
       (JFields.cons "request" (JValue.jobj JFields.nil) JFields.nil))⟩

/-- C8 amended witness: zero primary samples raise `IndexError`. -/
theorem validate_result_primary_sample_handling_witness :
    validate_result emptySampleBean (Thresh.lit (JValue.jint 1)) (Thresh.lit (JValue.jint 2))
      false none false = Except.error PyError.indexError :=
  (validate_result_primary_sample_handling emptySampleBean (JValue.jint 1) (JValue.jint 2)
    false false none).1 rfl
